import Mathlib

/-!
Verification development for the bosswallah_rag multilingual RAG pipeline.

The Python sources are shallowly embedded as executable Lean definitions.
External effects (the googletrans HTTP API, the langdetect library, the
Gemini LLM, the Chroma retriever and the Google Custom Search HTTP call)
are modelled as oracle functions supplied in an environment record; every
place where the Python code catches an exception from such a call is
modelled by the oracle returning `none` / `Except.error`.
-/

namespace BosswallahRag

/-! ### Python string primitives -/

/-- Whitespace recognised by Python's `str.strip()` / `str.split()`
(restricted to the common ASCII whitespace characters). -/
def isPySpace (c : Char) : Bool :=
  c = ' ' || c = '\t' || c = '\n' || c = '\r' || c.toNat = 11 || c.toNat = 12

/-- Models the Python test `not s or not s.strip()`: true iff every
character of `s` is whitespace (in particular for the empty string). -/
def isBlank (s : String) : Bool := s.data.all isPySpace

/-- Python `s.strip()`. -/
def pyStrip (s : String) : String :=
  ⟨((s.data.dropWhile isPySpace).reverse.dropWhile isPySpace).reverse⟩

/-- Does the character list start with the given pattern? -/
def startsWithList : List Char → List Char → Bool
  | _, [] => true
  | [], _ :: _ => false
  | c :: cs, p :: ps => c == p && startsWithList cs ps

/-- Does the character list contain the pattern as a contiguous run? -/
def containsList : List Char → List Char → Bool
  | [], pat => pat.isEmpty
  | c :: cs, pat => startsWithList (c :: cs) pat || containsList cs pat

/-- Python `pat in s` for strings (substring containment). -/
def strContains (s pat : String) : Bool := containsList s.data pat.data

/-- Python `s.split()`: split on whitespace runs, dropping empty pieces. -/
def pySplit (s : String) : List String :=
  (s.split isPySpace).filter (fun w => w ≠ "")

/-! ### Constants from `src/utils/constants.py` -/

def LANGUAGE_MAPPINGS : List (String × String) :=
  [("ml", "Malayalam"), ("hi", "Hindi"), ("ta", "Tamil"),
   ("te", "Telugu"), ("kn", "Kannada"), ("en", "English")]

def SUPPORTED_LANGUAGES : List String := ["ml", "hi", "ta", "te", "kn", "en"]

def GOOGLE_LANG_CODES : List (String × String) :=
  [("ml", "ml"), ("hi", "hi"), ("ta", "ta"), ("te", "te"), ("kn", "kn"), ("en", "en")]

/-- Python `dict.get(k, d)` over an association list. -/
def lookupD (m : List (String × String)) (k d : String) : String :=
  match m.find? (fun p => p.1 == k) with
  | some p => p.2
  | none => d

/-- `UNICODE_RANGES` from constants.py: per-language codepoint ranges used
by the script detector (`[ഀ-ൿ]` etc.), kept in source order. -/
def UNICODE_RANGES : List (String × (Nat × Nat)) :=
  [("ml", (0x0D00, 0x0D7F)), ("hi", (0x0900, 0x097F)), ("ta", (0x0B80, 0x0BFF)),
   ("te", (0x0C00, 0x0C7F)), ("kn", (0x0C80, 0x0CFF))]

def scriptLangs : List String := ["ml", "hi", "ta", "te", "kn"]

/-! ### Constants from `config.py` -/

structure AutoTriggerConditions where
  insufficient_docs : Bool
  general_queries : Bool
  low_confidence : Bool
deriving DecidableEq, Repr

/-- `WEB_SEARCH_CONFIG['auto_trigger_conditions']` from config.py. -/
def autoTriggerConditions : AutoTriggerConditions :=
  { insufficient_docs := true, general_queries := true, low_confidence := false }

/-- `RAG_CONFIG['insufficient_docs_threshold']` (the `.get` default is also 1). -/
def insufficientDocsThreshold : Nat := 1

/-- `WEB_SEARCH_CONFIG['enable_web_search']` as written in config.py. -/
def enableWebSearchConfig : Bool := true

/-! ### Language detector (`src/translation/language_detector.py`) -/

/-- Membership of a character in one codepoint range (a compiled
`re.compile('[\uXXXX-\uYYYY]').search` hit on that character). -/
def inScriptRange (r : Nat × Nat) (c : Char) : Bool :=
  r.1 ≤ c.toNat && c.toNat ≤ r.2

/-- `LanguageDetector.detect_by_script`: first language (in dict order)
whose Unicode range matches somewhere in the text. -/
def detectByScript (text : String) : Option String :=
  (UNICODE_RANGES.find? (fun p => text.data.any (inScriptRange p.2))).map Prod.fst

/-- Whether `text` contains a character of `lang`'s script block. -/
def hasScript (lang : String) (text : String) : Bool :=
  match UNICODE_RANGES.find? (fun p => p.1 == lang) with
  | some p => text.data.any (inScriptRange p.2)
  | none => false

/-- `LanguageDetector.detect_by_langdetect`; `ld` is the langdetect
library oracle (`none` models a raised exception). -/
def detectByLangdetect (ld : String → Option String) (text : String) : Option String :=
  match ld text with
  | some detected => if SUPPORTED_LANGUAGES.contains detected then some detected else none
  | none => none

/-- `LanguageDetector._is_likely_english`: ASCII-character ratio above 0.7
(spaces are dropped from the denominator only). -/
def isLikelyEnglish (text : String) : Bool :=
  let asciiChars := (text.data.filter (fun c => c.toNat < 128)).length
  let totalChars := (text.data.filter (fun c => c ≠ ' ')).length
  if totalChars = 0 then true
  else decide ((asciiChars : ℚ) / (totalChars : ℚ) > 7 / 10)

/-- `LanguageDetector.detect_language`. -/
def detectLanguage (ld : String → Option String) (text : String) : String :=
  if text = "" || isBlank text then "en"
  else
    match detectByScript text with
    | some scriptLang => scriptLang
    | none =>
      match detectByLangdetect ld text with
      | some statisticalLang => statisticalLang
      | none => if isLikelyEnglish text then "en" else "en"

/-- `LanguageDetector.get_confidence_score`. -/
def getConfidenceScore (ld : String → Option String) (text detectedLang : String) : ℚ :=
  if isBlank text then 0
  else if detectByScript text == some detectedLang then 95 / 100
  else if detectByLangdetect ld text == some detectedLang then 8 / 10
  else if detectedLang == "en" && isLikelyEnglish text then 6 / 10
  else 3 / 10

/-! ### Translator (`src/translation/translator.py`) -/

/-- One Gemini response: a text body and the finish reason recorded in
`response_metadata` (empty string when absent). -/
structure LLMResp where
  content : String
  finishReason : String
deriving DecidableEq, Repr

/-- The LLM collaborator: a prompt in, either a response or a raised
exception (with its message) out. -/
def LLMOracle : Type := String → Except String LLMResp

/-- External translation backend state: the googletrans API call
(text, source code, dest code ↦ `result.text`, `none` = exception). -/
structure TransEnv where
  googleApi : String → String → String → Option String

/-- `TranslationService.translate_with_google`. -/
def translateWithGoogle (genv : TransEnv) (text targetLang sourceLang : String) :
    Option String :=
  if sourceLang = targetLang || isBlank text then some text
  else
    let sourceCode := lookupD GOOGLE_LANG_CODES sourceLang "en"
    let targetCode := lookupD GOOGLE_LANG_CODES targetLang "en"
    match genv.googleApi text sourceCode targetCode with
    | none => none
    | some translated => if isBlank translated then none else some translated

/-- The prompt built by `TranslationService.translate_with_gemini`. -/
def geminiTranslationPrompt (sourceName targetName text : String) : String :=
  "You are a professional translator. Translate the following text accurately from "
    ++ sourceName ++ " to " ++ targetName ++
    ".\n\nRules:\n1. Provide ONLY the translation, no explanations\n2. Maintain the original meaning and context\n3. Use natural, fluent "
    ++ targetName ++
    "\n4. Do not add any prefixes, suffixes, or explanations\n\nText to translate: "
    ++ text ++ "\n\nTranslation:"

/-- `TranslationService.translate_with_gemini`. -/
def translateWithGemini (llm : Option LLMOracle) (text targetLang sourceLang : String) :
    Option String :=
  if sourceLang = targetLang || isBlank text then some text
  else
    match llm with
    | none => none
    | some l =>
      let sourceName := lookupD LANGUAGE_MAPPINGS sourceLang "English"
      let targetName := lookupD LANGUAGE_MAPPINGS targetLang "English"
      match l (geminiTranslationPrompt sourceName targetName text) with
      | .error _ => none
      | .ok resp =>
        let translated := pyStrip resp.content
        if isBlank translated then none else some translated

/-- The `llm`-guarded Gemini fallback tail of `robust_translate`. -/
def geminiFallback (llm : Option LLMOracle) (text targetLang sourceLang : String) :
    String :=
  match llm with
  | some l =>
    match translateWithGemini (some l) text targetLang sourceLang with
    | some geminiResult => if !isBlank geminiResult then geminiResult else text
    | none => text
  | none => text

/-- `TranslationService.robust_translate`. -/
def robustTranslate (genv : TransEnv) (llm : Option LLMOracle)
    (text targetLang sourceLang : String) : String :=
  if sourceLang = targetLang || isBlank text then text
  else
    match translateWithGoogle genv text targetLang sourceLang with
    | some googleResult =>
      if !isBlank googleResult && googleResult != text then googleResult
      else geminiFallback llm text targetLang sourceLang
    | none => geminiFallback llm text targetLang sourceLang

/-! ### Web search service (`src/search/google_search_service.py`) -/

/-- One Custom Search item as the service builds it; `none` fields model
keys absent from the raw dict (the `.get` defaults then apply). -/
structure SearchResult where
  title : Option String
  snippet : Option String
  link : Option String
  displayLink : Option String
deriving DecidableEq, Repr

/-- Body of the numbered-list loop in `format_search_results_for_llm`,
carrying the 1-based counter of Python's `enumerate(results, 1)`. -/
def formatResultsAux : Nat → List SearchResult → String
  | _, [] => ""
  | i, r :: rs =>
    let title := r.title.getD "No title"
    let snippet := r.snippet.getD "No description available"
    let source := r.displayLink.getD (r.link.getD "Unknown source")
    toString i ++ ". **" ++ title ++ "**\n" ++ "   Source: " ++ source ++ "\n"
      ++ "   " ++ snippet ++ "\n\n" ++ formatResultsAux (i + 1) rs

/-- `GoogleSearchService.format_search_results_for_llm`. -/
def formatSearchResultsForLLM (results : List SearchResult) : String :=
  if results.isEmpty then "No relevant web search results found."
  else "Web Search Results:\n\n" ++ formatResultsAux 1 results

/-! ### Query processor (`src/rag/query_processor.py`) -/

/-- Everything external the orchestrator touches during one request.
`enableWebSearch` is the config flag (`true` in the shipped config.py),
`googleSearchEnabled` is `google_search_service.is_enabled()` (credentials
present); `retrieve` is the Chroma retriever (documents by page content);
`webSearch` is `GoogleSearchService.search` over HTTP. `Except.error`
models a raised exception. -/
structure Env where
  enableWebSearch : Bool
  googleSearchEnabled : Bool
  langdetect : String → Option String
  googleApi : String → String → String → Option String
  retrieve : String → Except String (List String)
  llm : LLMOracle
  webSearch : String → Except String (List SearchResult)

/-- `self.web_search_enabled` as computed in `RAGQueryProcessor.__init__`. -/
def webSearchEnabledOf (enableWebSearch googleSearchEnabled : Bool) : Bool :=
  enableWebSearch && googleSearchEnabled

def generalKeywords : List String :=
  ["what is", "how to", "why", "explain", "definition", "meaning",
   "where can i", "where to", "suppliers", "buy", "purchase", "stores", "shops"]

def courseKeywords : List String :=
  ["course", "training", "certification", "boswallah", "bosswallah"]

def locationKeywords : List String :=
  ["near", "in ", "at ", "bangalore", "mumbai", "delhi", "chennai",
   "kolkata", "hyderabad", "pune", "location", "address"]

def vendorKeywords : List String :=
  ["supplier", "vendor", "dealer", "distributor", "retailer", "store",
   "shop", "market", "buy", "purchase", "where to get"]

def insufficientPhrases : List String :=
  ["no details available", "no information available", "not explicitly mentioned",
   "doesn't provide information", "no specific information", "not covered in the course",
   "beyond the scope", "not included in", "course doesn't mention",
   "information is not available", "no data about", "doesn't specify",
   "not detailed in", "lacks information about", "doesn't address",
   "we do not have details", "does not include"]

/-- The stop-word list inside `_is_response_insufficient`. -/
def queryStopWords : List String :=
  ["what", "where", "when", "who", "how", "can", "the", "and", "for"]

/-- `RAGQueryProcessor._is_response_insufficient`. -/
def isResponseInsufficient (query response : String) : Bool :=
  let responseLower := response.toLower
  let queryLower := query.toLower
  let foundPhrases := insufficientPhrases.filter (fun p => strContains responseLower p)
  let hasInsufficientIndicators := !foundPhrases.isEmpty
  let queryKeywords := pySplit queryLower
  let importantKeywords := queryKeywords.filter
    (fun w => decide (w.length > 3) && !queryStopWords.contains w)
  let missingKeywords := importantKeywords.filter (fun k => !strContains responseLower k)
  let keywordCoverage : ℚ :=
    if !importantKeywords.isEmpty then
      (missingKeywords.length : ℚ) / (importantKeywords.length : ℚ)
    else 0
  hasInsufficientIndicators || decide (keywordCoverage > 1 / 2)

/-- `RAGQueryProcessor._should_trigger_web_search`. The `webSearchEnabled`
argument is the processor's `self.web_search_enabled` field; `ragResponse`
is the draft answer (Python truthiness: the empty string disables the
draft-insufficiency rule). -/
def shouldTriggerWebSearch (webSearchEnabled : Bool) (query : String)
    (docs : List String) (ragResponse : String) : Bool :=
  if !webSearchEnabled then false
  else
    let queryLower := query.toLower
    if autoTriggerConditions.insufficient_docs
        && decide (docs.length < insufficientDocsThreshold) then true
    else if autoTriggerConditions.general_queries
        && generalKeywords.any (fun kw => strContains queryLower kw)
        && !courseKeywords.any (fun kw => strContains queryLower kw) then true
    else if ragResponse != "" && isResponseInsufficient query ragResponse then true
    else if locationKeywords.any (fun kw => strContains queryLower kw) then true
    else if vendorKeywords.any (fun kw => strContains queryLower kw) then true
    else false

/-- `GoogleSearchService.search_educational_content` (the HTTP `search`
call itself is the `webSearch` oracle). -/
def searchEducationalContent (env : Env) (query : String) :
    Except String (List SearchResult) :=
  env.webSearch (query ++ " education learning course training")

/-- `RAGQueryProcessor._perform_web_search` (exceptions yield `[]`). -/
def performWebSearch (env : Env) (query : String) : List SearchResult :=
  match searchEducationalContent env query with
  | .ok results => results
  | .error _ => []

/-- `RAGQueryProcessor._retrieve_documents` (exceptions yield `[]`). -/
def retrieveDocuments (env : Env) (query : String) : List String :=
  match env.retrieve query with
  | .ok docs => docs
  | .error _ => []

/-- Fixed message used when retrieval produced no documents. -/
def noInfoMessage : String :=
  "I couldn't find specific information about your question in the available course data."

/-- Fixed message used when the draft LLM call fails or returns nothing. -/
def unableMessage : String := "Unable to generate response from course data."

/-- The draft-answer prompt of `_generate_rag_only_response`. -/
def ragOnlyPrompt (context query : String) : String :=
  "Based on the provided course information, answer the user's question.\n\nCourse Information:\n"
    ++ context ++ "\n\nUser Question: " ++ query ++ "\n\nAnswer:"

/-- `RAGQueryProcessor._generate_rag_only_response`. -/
def generateRagOnlyResponse (llm : LLMOracle) (query : String) (docs : List String) :
    String :=
  if docs.isEmpty then noInfoMessage
  else
    let context := String.intercalate "\n\n" docs
    match llm (ragOnlyPrompt context query) with
    | .ok resp =>
      let answer := pyStrip resp.content
      if answer = "" then unableMessage else answer
    | .error _ => unableMessage

/-- The fixed fallback tail appended to the initial answer when enhanced
generation is cut off (MAX_TOKENS), empty, or raises. -/
def customMsg : String :=
  "\n\n⚠️ Unable to provide a web search answer due to token limitations in the free Gemini API. Please try with the paid version for longer queries, or visit [Google.com](https://www.google.com) directly for more information."

/-- The fixed suffix appended to every successful enhanced answer. -/
def googleSuffix : String :=
  "\n\nFor more information, you can also search on [Google.com](https://www.google.com)."

/-- `course_context` as computed in `_generate_enhanced_response`. -/
def courseContextOf (docs : List String) : String :=
  if !docs.isEmpty then String.intercalate "\n\n" (docs.take 2) else ""

/-- `web_context` as computed in `_generate_enhanced_response`. -/
def webContextOf (webResults : List SearchResult) : String :=
  if !webResults.isEmpty then (formatSearchResultsForLLM webResults).take 200 else ""

/-- `simple_prompt` as built in `_generate_enhanced_response`. -/
def enhancedPromptOf (query courseContext webContext : String) : String :=
  "Answer this question: " ++ query ++ "\n\n    Course information: "
    ++ courseContext.take 500 ++ "\n\n    Web information: "
    ++ webContext.take 500 ++ "\n\n    Answer:"

/-- `RAGQueryProcessor._generate_enhanced_response`. The response object
is modelled with a string body (`content`) and a finish reason, matching
the LLM collaborator interface; an exception anywhere in the `try` block
is the oracle's `Except.error` outcome. -/
def generateEnhancedResponse (llm : LLMOracle) (query : String)
    (docs : List String) (webResults : List SearchResult) : String :=
  let initialRagAnswer := generateRagOnlyResponse llm query docs
  let courseContext := courseContextOf docs
  let webContext := webContextOf webResults
  match llm (enhancedPromptOf query courseContext webContext) with
  | .error _ => initialRagAnswer ++ customMsg
  | .ok resp =>
    let answer := pyStrip resp.content
    if answer = "" ∨ resp.finishReason = "MAX_TOKENS" then initialRagAnswer ++ customMsg
    else answer ++ googleSuffix

/-- `RAGQueryProcessor._translate_to_english`. -/
def translateToEnglish (genv : TransEnv) (llm : LLMOracle)
    (query sourceLang : String) : String :=
  if sourceLang = "en" then query
  else
    let englishQuery := robustTranslate genv (some llm) query "en" sourceLang
    if isBlank englishQuery then query else englishQuery

/-- `RAGQueryProcessor._translate_response`. -/
def translateResponse (genv : TransEnv) (llm : LLMOracle)
    (response targetLang : String) : String :=
  if targetLang = "en" then response
  else
    let finalAnswer := robustTranslate genv (some llm) response targetLang "en"
    if isBlank finalAnswer then
      "[English response - translation unavailable]: " ++ response
    else finalAnswer

/-- The result dictionary handed across the core/UI boundary. `Option`
fields model dictionary keys that are present only on some paths (the
success path and `_create_error_response` set different key sets);
`success` and `answer` are set on both. -/
structure QueryResult where
  success : Bool
  query : Option String
  detected_language : Option String
  language_code : Option String
  confidence : Option ℚ
  english_query : Option String
  english_answer : Option String
  answer : String
  retrieved_docs_count : Option Nat
  retrieved_docs : Option (List String)
  web_search_triggered : Option Bool
  web_search_results_count : Option Nat
  web_search_sources : Option (List String)
  error : Option String
deriving DecidableEq, Repr

/-- `RAGQueryProcessor._create_error_response`. -/
def createErrorResponse (errorMsg : String) : QueryResult :=
  { success := false
    error := some errorMsg
    answer := "❌ Error: " ++ errorMsg
    detected_language := some "Unknown"
    retrieved_docs_count := some 0
    web_search_triggered := some false
    web_search_results_count := some 0
    query := none
    language_code := none
    confidence := none
    english_query := none
    english_answer := none
    retrieved_docs := none
    web_search_sources := none }

/-- `RAGQueryProcessor.process_query`: the full orchestrator pass. -/
def processQuery (env : Env) (userQuery : String) : QueryResult :=
  if isBlank userQuery then createErrorResponse "Empty query provided"
  else
    let genv : TransEnv := ⟨env.googleApi⟩
    let queryLang := detectLanguage env.langdetect userQuery
    let langName := lookupD LANGUAGE_MAPPINGS queryLang "Unknown"
    let confidence := getConfidenceScore env.langdetect userQuery queryLang
    let englishQuery := translateToEnglish genv env.llm userQuery queryLang
    let relevantDocs := retrieveDocuments env englishQuery
    let initialRagAnswer := generateRagOnlyResponse env.llm englishQuery relevantDocs
    let webSearchEnabled := webSearchEnabledOf env.enableWebSearch env.googleSearchEnabled
    let shouldTrigger :=
      shouldTriggerWebSearch webSearchEnabled englishQuery relevantDocs initialRagAnswer
    let webSearchResults := if shouldTrigger then performWebSearch env englishQuery else []
    let englishAnswer :=
      if shouldTrigger then generateEnhancedResponse env.llm englishQuery relevantDocs webSearchResults
      else initialRagAnswer
    let finalAnswer := translateResponse genv env.llm englishAnswer queryLang
    { success := true
      query := some userQuery
      detected_language := some langName
      language_code := some queryLang
      confidence := some confidence
      english_query := some englishQuery
      english_answer := some englishAnswer
      answer := finalAnswer
      retrieved_docs_count := some relevantDocs.length
      retrieved_docs := some relevantDocs
      web_search_triggered := some shouldTrigger
      web_search_results_count := some webSearchResults.length
      web_search_sources :=
        some (if webSearchResults.isEmpty then []
              else webSearchResults.map (fun r => r.displayLink.getD "Unknown"))
      error := none }

/-! ### Concrete environments used by witnesses and counterexamples -/

/-- An LLM that always answers with an empty body. -/
def stubLLM : LLMOracle := fun _ => .ok ⟨"", ""⟩

/-- A langdetect oracle that always raises. -/
def ldNone : String → Option String := fun _ => none

/-- A googletrans backend that always raises. -/
def failGoogle : TransEnv := ⟨fun _ _ _ => none⟩

/-- A fully stubbed environment: web search credentialed and on, all
other collaborators inert. -/
def stubEnv : Env :=
  { enableWebSearch := true
    googleSearchEnabled := true
    langdetect := ldNone
    googleApi := fun _ _ _ => none
    retrieve := fun _ => .ok []
    llm := stubLLM
    webSearch := fun _ => .ok [] }

/-- `stubEnv` with the web-search config flag turned off. -/
def disabledEnv : Env :=
  { enableWebSearch := false
    googleSearchEnabled := true
    langdetect := ldNone
    googleApi := fun _ _ _ => none
    retrieve := fun _ => .ok []
    llm := stubLLM
    webSearch := fun _ => .ok [] }

/-! ### Helper lemmas -/

lemma isBlank_empty : isBlank "" = true := rfl

lemma eq_empty_of_data_eq_nil {b : String} (h : b.data = []) : b = "" := by
  cases b with
  | mk l => exact congrArg String.mk h

lemma ne_empty_of_isBlank_false {s : String} (h : isBlank s = false) : s ≠ "" := by
  intro he
  rw [he, isBlank_empty] at h
  exact absurd h (by decide)

lemma string_append_ne_empty (a b : String) (hb : b ≠ "") : a ++ b ≠ "" := by
  intro h
  apply hb
  have hd := congrArg String.data h
  rw [String.data_append] at hd
  exact eq_empty_of_data_eq_nil (List.append_eq_nil.mp hd).2

lemma string_append_left_ne_empty (a b : String) (ha : a ≠ "") : a ++ b ≠ "" := by
  intro h
  apply ha
  have hd := congrArg String.data h
  rw [String.data_append] at hd
  exact eq_empty_of_data_eq_nil (List.append_eq_nil.mp hd).1

lemma string_append_ne_left (a b : String) (hb : b ≠ "") : a ++ b ≠ a := by
  intro h
  apply hb
  have hd := congrArg String.data h
  rw [String.data_append] at hd
  have hlen := congrArg List.length hd
  rw [List.length_append] at hlen
  have : b.data.length = 0 := by omega
  exact eq_empty_of_data_eq_nil (List.length_eq_zero.mp this)

/-- With the processor's enabled flag off, the trigger check is `false`
before any rule is consulted. -/
lemma shouldTrigger_of_not_enabled (query : String) (docs : List String)
    (ragResponse : String) :
    shouldTriggerWebSearch false query docs ragResponse = false := by
  simp [shouldTriggerWebSearch]

/-! ### Claims -/

/-- Claim C1: with web search operational, `_should_trigger_web_search`
returns true whenever strictly fewer documents were retrieved than the
configured insufficient-docs threshold (1 in config.py), for every query
text, document list and draft answer — the keyword and draft-content
rules are never consulted. -/
theorem shouldTriggerWebSearch_insufficient_docs (query : String)
    (docs : List String) (ragResponse : String)
    (h : docs.length < insufficientDocsThreshold) :
    shouldTriggerWebSearch true query docs ragResponse = true := by
  simp [shouldTriggerWebSearch, autoTriggerConditions, h]

/-- Witness for C1 at query "papaya seeds", no documents, a nonempty draft. -/
theorem shouldTriggerWebSearch_insufficient_docs_witness :
    ([] : List String).length < insufficientDocsThreshold ∧
    shouldTriggerWebSearch true "papaya seeds" [] "draft answer" = true :=
  ⟨by decide,
   shouldTriggerWebSearch_insufficient_docs "papaya seeds" [] "draft answer" (by decide)⟩

/-- Claim C2: if the config flag is off or the search backend is
unconfigured (`is_enabled()` false), the processor's
`self.web_search_enabled` conjunction is false and
`_should_trigger_web_search` returns false for every query, document
list and draft answer. -/
theorem shouldTriggerWebSearch_disabled (enableFlag svcEnabled : Bool)
    (query : String) (docs : List String) (ragResponse : String)
    (h : enableFlag = false ∨ svcEnabled = false) :
    shouldTriggerWebSearch (webSearchEnabledOf enableFlag svcEnabled)
      query docs ragResponse = false := by
  have : webSearchEnabledOf enableFlag svcEnabled = false := by
    rcases h with h | h <;> simp [webSearchEnabledOf, h]
  rw [this]
  exact shouldTrigger_of_not_enabled query docs ragResponse

/-- Witness for C2: config flag off, credentials present, zero documents
and an insufficiency-hedging draft still yield `false`. -/
theorem shouldTriggerWebSearch_disabled_witness :
    ((false : Bool) = false ∨ (true : Bool) = false) ∧
    shouldTriggerWebSearch (webSearchEnabledOf false true)
      "what is papaya" [] "no information available" = false :=
  ⟨Or.inl rfl,
   shouldTriggerWebSearch_disabled false true
     "what is papaya" [] "no information available" (Or.inl rfl)⟩

/-- The claim-C3 reading of "all schema fields present" for one result. -/
def hasAllSchemaFields (r : QueryResult) : Prop :=
  r.query.isSome ∧ r.detected_language.isSome ∧ r.language_code.isSome ∧
  r.confidence.isSome ∧ r.english_query.isSome ∧ r.english_answer.isSome ∧
  r.retrieved_docs_count.isSome ∧ r.retrieved_docs.isSome ∧
  r.web_search_triggered.isSome ∧ r.web_search_results_count.isSome ∧
  r.web_search_sources.isSome

/-- Counterexample to claim C3 as stated: the failure result for the
empty query does not carry the full schema — `languageCode` (and
likewise `confidence`, `englishQuery`, `englishAnswer`, `retrievedDocs`,
`webSearchSources`, `query`) is absent from `_create_error_response`. -/
theorem errorResponse_missing_schema_fields :
    ¬ hasAllSchemaFields (processQuery stubEnv "") := by
  simp [hasAllSchemaFields, processQuery, createErrorResponse, isBlank_empty]

/-- Claim C3 (amended): every failure result built at the orchestrator
boundary is exactly `_create_error_response(msg)`: `success=false`, the
error text, a human-readable answer, `detected_language='Unknown'`, and
zeroed document/web-search counters — while `query`, `languageCode`,
`confidence`, `englishQuery`, `englishAnswer`, `retrievedDocs` and
`webSearchSources` are left unset; no exception propagates (the embedding
is a total function into this shape). -/
theorem createErrorResponse_shape (msg : String) :
    (createErrorResponse msg).success = false ∧
    (createErrorResponse msg).error = some msg ∧
    (createErrorResponse msg).answer = "❌ Error: " ++ msg ∧
    (createErrorResponse msg).answer ≠ "" ∧
    (createErrorResponse msg).detected_language = some "Unknown" ∧
    (createErrorResponse msg).retrieved_docs_count = some 0 ∧
    (createErrorResponse msg).web_search_triggered = some false ∧
    (createErrorResponse msg).web_search_results_count = some 0 ∧
    (createErrorResponse msg).query = none ∧
    (createErrorResponse msg).language_code = none ∧
    (createErrorResponse msg).confidence = none ∧
    (createErrorResponse msg).english_query = none ∧
    (createErrorResponse msg).english_answer = none ∧
    (createErrorResponse msg).retrieved_docs = none ∧
    (createErrorResponse msg).web_search_sources = none := by
  refine ⟨rfl, rfl, rfl, ?_, rfl, rfl, rfl, rfl, rfl, rfl, rfl, rfl, rfl, rfl, rfl⟩
  exact string_append_left_ne_empty "❌ Error: " msg (by decide)

/-- Claim C4: a blank (empty or whitespace-only) query short-circuits to
the fixed failure result with error "Empty query provided"; the result is
identical under every environment, i.e. no backend is consulted. -/
theorem processQuery_blank_query (env env' : Env) (q : String)
    (h : isBlank q = true) :
    processQuery env q = createErrorResponse "Empty query provided" ∧
    (processQuery env q).error = some "Empty query provided" ∧
    processQuery env q = processQuery env' q := by
  refine ⟨?_, ?_, ?_⟩ <;> simp [processQuery, h, createErrorResponse]

/-- Witness for C4 at the empty query. -/
theorem processQuery_blank_query_witness :
    isBlank "" = true ∧
    (processQuery stubEnv "" = createErrorResponse "Empty query provided" ∧
     (processQuery stubEnv "").error = some "Empty query provided" ∧
     processQuery stubEnv "" = processQuery disabledEnv "") :=
  ⟨rfl, processQuery_blank_query stubEnv disabledEnv "" rfl⟩

/-- The Gemini fallback never turns a nonempty input into the empty string. -/
lemma geminiFallback_ne_empty (llm : Option LLMOracle)
    (text targetLang sourceLang : String) (hne : text ≠ "") :
    geminiFallback llm text targetLang sourceLang ≠ "" := by
  unfold geminiFallback
  cases llm with
  | none => exact hne
  | some l =>
    show (match translateWithGemini (some l) text targetLang sourceLang with
          | some geminiResult => if !isBlank geminiResult then geminiResult else text
          | none => text) ≠ ""
    cases h : translateWithGemini (some l) text targetLang sourceLang with
    | none => exact hne
    | some r =>
      show (if !isBlank r then r else text) ≠ ""
      split
      · rename_i hr
        intro he
        rw [he] at hr
        exact absurd hr (by decide)
      · exact hne

/-- When Gemini fails or returns blank/unchanged text, the fallback is
the original text. -/
lemma geminiFallback_passthrough (llm : Option LLMOracle)
    (text targetLang sourceLang : String)
    (hl : ∀ l r, llm = some l →
      translateWithGemini (some l) text targetLang sourceLang = some r →
      isBlank r = true ∨ r = text) :
    geminiFallback llm text targetLang sourceLang = text := by
  unfold geminiFallback
  cases llm with
  | none => rfl
  | some l =>
    show (match translateWithGemini (some l) text targetLang sourceLang with
          | some geminiResult => if !isBlank geminiResult then geminiResult else text
          | none => text) = text
    cases h : translateWithGemini (some l) text targetLang sourceLang with
    | none => rfl
    | some r =>
      show (if !isBlank r then r else text) = text
      rcases hl l r rfl h with hb | ht
      · rw [hb]
        rfl
      · rw [ht]
        split <;> rfl

/-- Claim C5: for nonempty input, `robust_translate` returns nonempty
text; and when the Google backend fails or produces blank/unchanged
output and the Gemini fallback fails or produces blank/unchanged output,
it returns the original text unchanged. Totality of the embedding is the
no-escaping-exception contract. -/
theorem robustTranslate_nonempty_and_passthrough (genv : TransEnv)
    (llm : Option LLMOracle) (text targetLang sourceLang : String)
    (hne : text ≠ "") :
    robustTranslate genv llm text targetLang sourceLang ≠ "" ∧
    (((∀ gr, translateWithGoogle genv text targetLang sourceLang = some gr →
        isBlank gr = true ∨ gr = text) ∧
      (∀ l r, llm = some l →
        translateWithGemini (some l) text targetLang sourceLang = some r →
        isBlank r = true ∨ r = text)) →
      robustTranslate genv llm text targetLang sourceLang = text) := by
  constructor
  · unfold robustTranslate
    split
    · exact hne
    · cases hg : translateWithGoogle genv text targetLang sourceLang with
      | none => exact geminiFallback_ne_empty llm text targetLang sourceLang hne
      | some gr =>
        show (if !isBlank gr && gr != text then gr
              else geminiFallback llm text targetLang sourceLang) ≠ ""
        split
        · rename_i hacc
          simp only [Bool.and_eq_true, Bool.not_eq_true'] at hacc
          exact ne_empty_of_isBlank_false hacc.1
        · exact geminiFallback_ne_empty llm text targetLang sourceLang hne
  · rintro ⟨hg, hl⟩
    unfold robustTranslate
    split
    · rfl
    · cases hgo : translateWithGoogle genv text targetLang sourceLang with
      | none => exact geminiFallback_passthrough llm text targetLang sourceLang hl
      | some gr =>
        show (if !isBlank gr && gr != text then gr
              else geminiFallback llm text targetLang sourceLang) = text
        have hcond : (!isBlank gr && gr != text) = false := by
          rcases hg gr hgo with hb | ht
          · simp [hb]
          · simp [ht]
        rw [hcond]
        exact geminiFallback_passthrough llm text targetLang sourceLang hl

/-- Witness for C5: Google raises, no LLM handle is supplied, and the
input comes back unchanged and nonempty. -/
theorem robustTranslate_nonempty_and_passthrough_witness :
    ("hello" : String) ≠ "" ∧
    (robustTranslate failGoogle none "hello" "hi" "en" ≠ "" ∧
     (((∀ gr, translateWithGoogle failGoogle "hello" "hi" "en" = some gr →
         isBlank gr = true ∨ gr = "hello") ∧
       (∀ l r, (none : Option LLMOracle) = some l →
         translateWithGemini (some l) "hello" "hi" "en" = some r →
         isBlank r = true ∨ r = "hello")) →
       robustTranslate failGoogle none "hello" "hi" "en" = "hello")) :=
  ⟨by decide,
   robustTranslate_nonempty_and_passthrough failGoogle none "hello" "hi" "en" (by decide)⟩

/-- Claim C7: in enhanced mode, an LLM exception, an empty body, or a
MAX_TOKENS finish reason all yield the initial RAG answer with the fixed
token-limit suffix appended — never an empty answer. -/
theorem generateEnhancedResponse_fallback (llm : LLMOracle) (query : String)
    (docs : List String) (webResults : List SearchResult)
    (h : match llm (enhancedPromptOf query (courseContextOf docs) (webContextOf webResults)) with
         | .error _ => True
         | .ok resp => pyStrip resp.content = "" ∨ resp.finishReason = "MAX_TOKENS") :
    generateEnhancedResponse llm query docs webResults =
      generateRagOnlyResponse llm query docs ++ customMsg ∧
    generateEnhancedResponse llm query docs webResults ≠ "" := by
  have hmain : generateEnhancedResponse llm query docs webResults =
      generateRagOnlyResponse llm query docs ++ customMsg := by
    cases hllm : llm (enhancedPromptOf query (courseContextOf docs) (webContextOf webResults)) with
    | error e => simp [generateEnhancedResponse, hllm]
    | ok resp =>
      rw [hllm] at h
      simp only [generateEnhancedResponse, hllm]
      rw [if_pos h]
  refine ⟨hmain, ?_⟩
  rw [hmain]
  exact string_append_ne_empty _ customMsg (by decide)

/-- Witness for C7: an LLM returning an empty body over empty contexts. -/
theorem generateEnhancedResponse_fallback_witness :
    (match stubLLM (enhancedPromptOf "q" (courseContextOf []) (webContextOf [])) with
     | .error _ => True
     | .ok resp => pyStrip resp.content = "" ∨ resp.finishReason = "MAX_TOKENS") ∧
    (generateEnhancedResponse stubLLM "q" [] [] =
       generateRagOnlyResponse stubLLM "q" [] ++ customMsg ∧
     generateEnhancedResponse stubLLM "q" [] [] ≠ "") :=
  ⟨Or.inl rfl, generateEnhancedResponse_fallback stubLLM "q" [] [] (Or.inl rfl)⟩

/-- Claim C9: whenever enhanced generation succeeds (non-empty stripped
body, finish reason other than MAX_TOKENS, no exception), the result is
the model answer with the fixed Google-search suffix appended — it is
never the model answer verbatim. -/
theorem generateEnhancedResponse_success_suffix (llm : LLMOracle)
    (query : String) (docs : List String) (webResults : List SearchResult)
    (resp : LLMResp)
    (hok : llm (enhancedPromptOf query (courseContextOf docs) (webContextOf webResults)) =
      .ok resp)
    (hne : pyStrip resp.content ≠ "")
    (hfr : resp.finishReason ≠ "MAX_TOKENS") :
    generateEnhancedResponse llm query docs webResults =
      pyStrip resp.content ++ googleSuffix ∧
    generateEnhancedResponse llm query docs webResults ≠ pyStrip resp.content := by
  have hmain : generateEnhancedResponse llm query docs webResults =
      pyStrip resp.content ++ googleSuffix := by
    simp only [generateEnhancedResponse, hok]
    rw [if_neg]
    rintro (hc | hc)
    · exact hne hc
    · exact hfr hc
  refine ⟨hmain, ?_⟩
  rw [hmain]
  exact string_append_ne_left _ googleSuffix (by decide)

/-- An LLM that always answers with a fixed nonempty body and a STOP
finish reason. -/
def okLLM : LLMOracle := fun _ => .ok ⟨"Paris is the capital of France.", "STOP"⟩

/-- Witness for C9. -/
theorem generateEnhancedResponse_success_suffix_witness :
    (okLLM (enhancedPromptOf "q" (courseContextOf []) (webContextOf [])) =
       Except.ok (⟨"Paris is the capital of France.", "STOP"⟩ : LLMResp) ∧
     pyStrip "Paris is the capital of France." ≠ "" ∧
     ("STOP" : String) ≠ "MAX_TOKENS") ∧
    (generateEnhancedResponse okLLM "q" [] [] =
       pyStrip "Paris is the capital of France." ++ googleSuffix ∧
     generateEnhancedResponse okLLM "q" [] [] ≠ pyStrip "Paris is the capital of France.") :=
  ⟨⟨rfl, by decide, by decide⟩,
   generateEnhancedResponse_success_suffix okLLM "q" [] []
     ⟨"Paris is the capital of France.", "STOP"⟩ rfl (by decide) (by decide)⟩

/-- The Gemini fallback never turns non-whitespace input into blank text. -/
lemma geminiFallback_not_blank (llm : Option LLMOracle)
    (text targetLang sourceLang : String) (h : isBlank text = false) :
    isBlank (geminiFallback llm text targetLang sourceLang) = false := by
  unfold geminiFallback
  cases llm with
  | none => exact h
  | some l =>
    show isBlank (match translateWithGemini (some l) text targetLang sourceLang with
          | some geminiResult => if !isBlank geminiResult then geminiResult else text
          | none => text) = false
    cases hg : translateWithGemini (some l) text targetLang sourceLang with
    | none => exact h
    | some r =>
      show isBlank (if !isBlank r then r else text) = false
      split
      · rename_i hr
        simp only [Bool.not_eq_true'] at hr
        exact hr
      · exact h

/-- `robust_translate` never turns non-whitespace input into blank text. -/
lemma robustTranslate_not_blank (genv : TransEnv) (llm : Option LLMOracle)
    (text targetLang sourceLang : String) (h : isBlank text = false) :
    isBlank (robustTranslate genv llm text targetLang sourceLang) = false := by
  unfold robustTranslate
  split
  · exact h
  · cases hg : translateWithGoogle genv text targetLang sourceLang with
    | none => exact geminiFallback_not_blank llm text targetLang sourceLang h
    | some gr =>
      show isBlank (if !isBlank gr && gr != text then gr
            else geminiFallback llm text targetLang sourceLang) = false
      split
      · rename_i hacc
        simp only [Bool.and_eq_true, Bool.not_eq_true'] at hacc
        exact hacc.1
      · exact geminiFallback_not_blank llm text targetLang sourceLang h

/-- Counterexample to claim C10 as stated: the English answer " " is
non-empty, yet `_translate_response` to Hindi produces the
"[English response - translation unavailable]" annotation, because
`robust_translate` passes whitespace-only text through unchanged and the
branch tests `final_answer.strip() == ""`. -/
theorem translateResponse_annotation_reachable :
    (" " : String) ≠ "" ∧
    translateResponse failGoogle stubLLM " " "hi" =
      "[English response - translation unavailable]: " ++ " " := by
  constructor
  · decide
  · decide

/-- Claim C10 (amended): for every English answer containing at least one
non-whitespace character, the annotation branch of `_translate_response`
is unreachable: the translated answer is never blank, and for a
non-English target the result is exactly the `robust_translate` output. -/
theorem translateResponse_no_annotation (genv : TransEnv) (llm : LLMOracle)
    (response targetLang : String) (h : isBlank response = false) :
    isBlank (translateResponse genv llm response targetLang) = false ∧
    (targetLang ≠ "en" →
      translateResponse genv llm response targetLang =
        robustTranslate genv (some llm) response targetLang "en") := by
  constructor
  · unfold translateResponse
    split
    · exact h
    · have hb := robustTranslate_not_blank genv (some llm) response targetLang "en" h
      simp [hb]
  · intro ht
    unfold translateResponse
    rw [if_neg ht]
    have hb := robustTranslate_not_blank genv (some llm) response targetLang "en" h
    simp [hb]

/-- Witness for the amended C10. -/
theorem translateResponse_no_annotation_witness :
    isBlank "hello" = false ∧
    (isBlank (translateResponse failGoogle stubLLM "hello" "hi") = false ∧
     (("hi" : String) ≠ "en" →
       translateResponse failGoogle stubLLM "hello" "hi" =
         robustTranslate failGoogle (some stubLLM) "hello" "hi" "en")) :=
  ⟨by decide, translateResponse_no_annotation failGoogle stubLLM "hello" "hi" (by decide)⟩

/-- Claim C8: with no retrieved documents the draft generator returns the
fixed "couldn't find specific information" message for every LLM (the
LLM is never consulted), and a full request with retrieval returning zero
documents and web search disabled ends with exactly that draft as its
English answer and `web_search_triggered = false`. -/
theorem processQuery_no_docs_web_disabled (env : Env) (q : String)
    (hq : isBlank q = false)
    (hret : ∀ s, env.retrieve s = .ok [])
    (hdis : env.enableWebSearch = false ∨ env.googleSearchEnabled = false) :
    (∀ llm query, generateRagOnlyResponse llm query [] = noInfoMessage) ∧
    (processQuery env q).english_answer = some noInfoMessage ∧
    (processQuery env q).web_search_triggered = some false := by
  have hwse : webSearchEnabledOf env.enableWebSearch env.googleSearchEnabled = false := by
    rcases hdis with hd | hd <;> simp [webSearchEnabledOf, hd]
  refine ⟨fun llm query => rfl, ?_, ?_⟩ <;>
    simp [processQuery, hq, retrieveDocuments, hret, generateRagOnlyResponse,
          hwse, shouldTrigger_of_not_enabled]

/-- Witness for C8: the disabled environment with empty retrieval on a
nonempty English query. -/
theorem processQuery_no_docs_web_disabled_witness :
    (isBlank "hello" = false ∧ (∀ s, disabledEnv.retrieve s = Except.ok []) ∧
     (disabledEnv.enableWebSearch = false ∨ disabledEnv.googleSearchEnabled = false)) ∧
    ((∀ llm query, generateRagOnlyResponse llm query [] = noInfoMessage) ∧
     (processQuery disabledEnv "hello").english_answer = some noInfoMessage ∧
     (processQuery disabledEnv "hello").web_search_triggered = some false) :=
  ⟨⟨by decide, fun s => rfl, Or.inl rfl⟩,
   processQuery_no_docs_web_disabled disabledEnv "hello" (by decide) (fun s => rfl) (Or.inl rfl)⟩

/-! ### Script-detection lemmas for C6 -/

lemma hasScript_ml (text : String) :
    hasScript "ml" text = text.data.any (inScriptRange (0x0D00, 0x0D7F)) := rfl

lemma hasScript_hi (text : String) :
    hasScript "hi" text = text.data.any (inScriptRange (0x0900, 0x097F)) := rfl

lemma hasScript_ta (text : String) :
    hasScript "ta" text = text.data.any (inScriptRange (0x0B80, 0x0BFF)) := rfl

lemma hasScript_te (text : String) :
    hasScript "te" text = text.data.any (inScriptRange (0x0C00, 0x0C7F)) := rfl

lemma hasScript_kn (text : String) :
    hasScript "kn" text = text.data.any (inScriptRange (0x0C80, 0x0CFF)) := rfl

lemma isPySpace_toNat_lt {c : Char} (h : isPySpace c = true) : c.toNat < 128 := by
  simp only [isPySpace, Bool.or_eq_true, decide_eq_true_eq] at h
  rcases h with ((((h | h) | h) | h) | h) | h
  · subst h; decide
  · subst h; decide
  · subst h; decide
  · subst h; decide
  · rw [h]; decide
  · rw [h]; decide

/-- A text containing a character of an Indic script block (all of which
start at codepoint 0x900 or above) is neither empty nor whitespace-only. -/
lemma script_char_not_blank {lo hi2 : Nat} (hlo : 2304 ≤ lo) {text : String}
    (h : text.data.any (inScriptRange (lo, hi2)) = true) :
    isBlank text = false ∧ text ≠ "" := by
  rcases List.any_eq_true.mp h with ⟨c, hc, hr⟩
  have hcn : lo ≤ c.toNat := by
    simp only [inScriptRange, Bool.and_eq_true, decide_eq_true_eq] at hr
    exact hr.1
  have hnsp : isPySpace c = false := by
    cases hx : isPySpace c
    · rfl
    · have := isPySpace_toNat_lt hx
      omega
  constructor
  · cases hx : isBlank text
    · rfl
    · have hall : text.data.all isPySpace = true := hx
      have := List.all_eq_true.mp hall c hc
      rw [hnsp] at this
      exact absurd this (by decide)
  · intro he
    rw [he] at hc
    exact absurd hc (List.not_mem_nil c)

/-- Claim C6: when exactly one supported script block occurs in the text,
`detect_language` returns that language's code and
`get_confidence_score` for it is 0.95, for every langdetect oracle. -/
theorem detectLanguage_unique_script (ld : String → Option String)
    (text lang : String)
    (hmem : lang ∈ scriptLangs)
    (hhas : hasScript lang text = true)
    (huniq : ∀ l ∈ scriptLangs, l ≠ lang → hasScript l text = false) :
    detectLanguage ld text = lang ∧ getConfidenceScore ld text lang = 95 / 100 := by
  have hl : lang = "ml" ∨ lang = "hi" ∨ lang = "ta" ∨ lang = "te" ∨ lang = "kn" := by
    simpa [scriptLangs] using hmem
  rcases hl with rfl | rfl | rfl | rfl | rfl
  · have hml : text.data.any (inScriptRange (0x0D00, 0x0D7F)) = true := by
      rw [← hasScript_ml]; exact hhas
    have hnb := script_char_not_blank (by decide) hml
    have hdet : detectByScript text = some "ml" := by
      simp [detectByScript, UNICODE_RANGES, List.find?_cons, hml]
    refine ⟨?_, ?_⟩ <;> simp [detectLanguage, getConfidenceScore, hnb.1, hnb.2, hdet]
  · have hml : text.data.any (inScriptRange (0x0D00, 0x0D7F)) = false := by
      rw [← hasScript_ml]; exact huniq "ml" (by decide) (by decide)
    have hhi : text.data.any (inScriptRange (0x0900, 0x097F)) = true := by
      rw [← hasScript_hi]; exact hhas
    have hnb := script_char_not_blank (by decide) hhi
    have hdet : detectByScript text = some "hi" := by
      simp [detectByScript, UNICODE_RANGES, List.find?_cons, hml, hhi]
    refine ⟨?_, ?_⟩ <;> simp [detectLanguage, getConfidenceScore, hnb.1, hnb.2, hdet]
  · have hml : text.data.any (inScriptRange (0x0D00, 0x0D7F)) = false := by
      rw [← hasScript_ml]; exact huniq "ml" (by decide) (by decide)
    have hhi : text.data.any (inScriptRange (0x0900, 0x097F)) = false := by
      rw [← hasScript_hi]; exact huniq "hi" (by decide) (by decide)
    have hta : text.data.any (inScriptRange (0x0B80, 0x0BFF)) = true := by
      rw [← hasScript_ta]; exact hhas
    have hnb := script_char_not_blank (by decide) hta
    have hdet : detectByScript text = some "ta" := by
      simp [detectByScript, UNICODE_RANGES, List.find?_cons, hml, hhi, hta]
    refine ⟨?_, ?_⟩ <;> simp [detectLanguage, getConfidenceScore, hnb.1, hnb.2, hdet]
  · have hml : text.data.any (inScriptRange (0x0D00, 0x0D7F)) = false := by
      rw [← hasScript_ml]; exact huniq "ml" (by decide) (by decide)
    have hhi : text.data.any (inScriptRange (0x0900, 0x097F)) = false := by
      rw [← hasScript_hi]; exact huniq "hi" (by decide) (by decide)
    have hta : text.data.any (inScriptRange (0x0B80, 0x0BFF)) = false := by
      rw [← hasScript_ta]; exact huniq "ta" (by decide) (by decide)
    have hte : text.data.any (inScriptRange (0x0C00, 0x0C7F)) = true := by
      rw [← hasScript_te]; exact hhas
    have hnb := script_char_not_blank (by decide) hte
    have hdet : detectByScript text = some "te" := by
      simp [detectByScript, UNICODE_RANGES, List.find?_cons, hml, hhi, hta, hte]
    refine ⟨?_, ?_⟩ <;> simp [detectLanguage, getConfidenceScore, hnb.1, hnb.2, hdet]
  · have hml : text.data.any (inScriptRange (0x0D00, 0x0D7F)) = false := by
      rw [← hasScript_ml]; exact huniq "ml" (by decide) (by decide)
    have hhi : text.data.any (inScriptRange (0x0900, 0x097F)) = false := by
      rw [← hasScript_hi]; exact huniq "hi" (by decide) (by decide)
    have hta : text.data.any (inScriptRange (0x0B80, 0x0BFF)) = false := by
      rw [← hasScript_ta]; exact huniq "ta" (by decide) (by decide)
    have hte : text.data.any (inScriptRange (0x0C00, 0x0C7F)) = false := by
      rw [← hasScript_te]; exact huniq "te" (by decide) (by decide)
    have hkn : text.data.any (inScriptRange (0x0C80, 0x0CFF)) = true := by
      rw [← hasScript_kn]; exact hhas
    have hnb := script_char_not_blank (by decide) hkn
    have hdet : detectByScript text = some "kn" := by
      simp [detectByScript, UNICODE_RANGES, List.find?_cons, hml, hhi, hta, hte, hkn]
    refine ⟨?_, ?_⟩ <;> simp [detectLanguage, getConfidenceScore, hnb.1, hnb.2, hdet]

/-- Witness for C6: the single Tamil letter "அ" (U+0B85). -/
theorem detectLanguage_unique_script_witness :
    ("ta" ∈ scriptLangs ∧ hasScript "ta" "அ" = true ∧
     (∀ l ∈ scriptLangs, l ≠ "ta" → hasScript l "அ" = false)) ∧
    (detectLanguage ldNone "அ" = "ta" ∧ getConfidenceScore ldNone "அ" "ta" = 95 / 100) :=
  ⟨⟨by decide, by decide, by decide⟩,
   detectLanguage_unique_script ldNone "அ" "ta" (by decide) (by decide) (by decide)⟩

end BosswallahRag
